import Mathlib

/-!
Verification of the SMART ATA attribute check plugin
(`cmk/plugins/smart/agent_based/smart_ata.py`).

The plugin evaluates S.M.A.R.T. ATA disk attributes: discovery snapshots
baseline raw values of eight tracked attribute IDs, and the check compares
current raw values against those baselines, with a rate-based rule for
attribute 188 and a normalized-value threshold rule for attribute 196.

The disk data model (`smart_posix` section types), the item naming helper
(`get_item`), and the host framework utilities (`get_rate`, `check_levels`,
`check_temperature`, `render.timespan`) live outside this repository; they
are modelled from the specification and marked as such.  The check and
discovery functions themselves are translated directly from the source.
-/

namespace SmartAta

/-- Raw value record of a SMART attribute (the `raw` field with its `value`). -/
structure RawValue where
  value : Int
deriving DecidableEq, Repr

/-- Modelled from the spec: a SMART attribute entry of the external section
parser, keyed by a numeric ID, carrying a vendor `name`, a normalized
`value`, a vendor threshold `thresh`, and a `raw` value. -/
structure ATAAttribute where
  id : Nat
  name : String
  value : Int
  thresh : Int
  raw : RawValue
deriving DecidableEq, Repr

/-- Modelled from the spec: the current temperature reading of a disk. -/
structure Temperature where
  current : Int
deriving DecidableEq, Repr

/-- Modelled from the spec: the ATA device identity record (used only for
item naming). -/
structure ATADevice where
  name : String
  serial : String
deriving DecidableEq, Repr

/-- Modelled from the spec: an ATA disk record (`ATAAll` of `smart_posix`):
device identity, an optional current temperature and an optional SMART
attribute collection. -/
structure ATAAll where
  device : ATADevice
  temperature : Option Temperature
  ata_smart_attributes : Option (List ATAAttribute)
deriving DecidableEq, Repr

/-- Modelled from the spec: a device record in the parsed section is either
an ATA-capable record or some other device kind (NVMe, SCSI, failure). -/
inductive StorageDevice where
  | ata (d : ATAAll)
  | nonATA
deriving DecidableEq, Repr

/-- Modelled from the spec: the parsed agent section, a mapping from disk
identity key to device record. -/
structure Section where
  devices : List ((String × String) × StorageDevice)
deriving DecidableEq, Repr

/-- Dictionary lookup `section.devices.get(key)`. -/
def Section.get (s : Section) (k : String × String) : Option StorageDevice :=
  (s.devices.find? fun e => e.1 == k).map fun e => e.2

/-- Modelled from the spec: `ATAAll.by_id` — lookup of a SMART attribute by
its numeric ID over the disk's attribute collection; `none` when the disk
exposes no collection or the ID is absent. -/
def ATAAll.by_id (disk : ATAAll) (i : Nat) : Option ATAAttribute :=
  match disk.ata_smart_attributes with
  | none => none
  | some attrs => attrs.find? fun a => a.id == i

/-- Monitoring state of an emitted result (`State` of the host framework). -/
inductive State where
  | OK
  | WARN
  | CRIT
  | UNKNOWN
deriving DecidableEq, Repr

/-- One emitted item of a check function: a `Result` (state and summary) or
a `Metric` (name and value). -/
inductive CheckOutput where
  | result (state : State) (summary : String)
  | metric (name : String) (value : Int)
deriving DecidableEq, Repr

/-- The discovery parameters: the item-naming strategy
(`{"item_type": ("device_name", None)}`). -/
structure DiscoveryParam where
  item_type : String × Option String
deriving DecidableEq, Repr

/-- Modelled from the spec: `get_item` from the sibling `smart` module —
derives the service item label from the disk according to the naming
strategy; it affects only the label string, never the evaluation. -/
def get_item (disk : ATAAll) (itemType : String) : String :=
  if itemType == "device_name" then disk.device.name else disk.device.serial

/-- The persisted baseline parameters of the attribute check (`AtaParams`):
the disk identity key and the raw value discovered for each tracked ID
(`none` when the attribute was absent at discovery). -/
structure AtaParams where
  key : String × String
  id_5 : Option Int
  id_10 : Option Int
  id_184 : Option Int
  id_187 : Option Int
  id_188 : Option Int
  id_196 : Option Int
  id_197 : Option Int
  id_199 : Option Int
deriving DecidableEq, Repr

/-- A monitored-item proposal of attribute discovery (`Service`). -/
structure Service where
  item : String
  parameters : AtaParams
deriving DecidableEq, Repr

/-- The baseline parameter record built by `discover_smart_ata` for one disk. -/
def baselineParams (key : String × String) (disk : ATAAll) : AtaParams :=
  { key := key
    id_5 := (disk.by_id 5).map fun e => e.raw.value
    id_10 := (disk.by_id 10).map fun e => e.raw.value
    id_184 := (disk.by_id 184).map fun e => e.raw.value
    id_187 := (disk.by_id 187).map fun e => e.raw.value
    id_188 := (disk.by_id 188).map fun e => e.raw.value
    id_196 := (disk.by_id 196).map fun e => e.raw.value
    id_197 := (disk.by_id 197).map fun e => e.raw.value
    id_199 := (disk.by_id 199).map fun e => e.raw.value }

/-- `discover_smart_ata`: one proposal per ATA disk exposing a SMART
attribute collection, carrying the identity key and the 8 baseline values. -/
def discover_smart_ata (params : DiscoveryParam) (sec : Section) : List Service :=
  sec.devices.filterMap fun kd =>
    match kd.2 with
    | StorageDevice.ata disk =>
      if disk.ata_smart_attributes.isSome then
        some { item := get_item disk params.item_type.1
               parameters := baselineParams kd.1 disk }
      else none
    | StorageDevice.nonATA => none

/-- The parameters of the temperature check: the discovered identity key
plus the temperature levels (`TempAndDiscoveredParams`). -/
structure TempParams where
  key : String × String
  levels : Int × Int
deriving DecidableEq, Repr

/-- Modelled from the spec: the external generic temperature evaluator —
compares the reading against (warn, crit) upper levels. -/
def check_temperature (reading : Int) (levels : Int × Int) : List CheckOutput :=
  let st := if reading ≥ levels.2 then State.CRIT
            else if reading ≥ levels.1 then State.WARN
            else State.OK
  [CheckOutput.result st s!"Temperature: {reading}"]

/-- `check_smart_ata_temp`: silent skip when the disk keyed by the
discovered key is absent or not ATA, or it reports no temperature;
otherwise delegate to the external temperature evaluator. -/
def check_smart_ata_temp (item : String) (params : TempParams) (sec : Section) :
    List CheckOutput :=
  match sec.get params.key with
  | some (StorageDevice.ata disk) =>
    match disk.temperature with
    | none => []
    | some t => check_temperature t.current params.levels
  | _ => []

/-- `_check_against_discovery`: the shared regression-vs-baseline
evaluator.  CRIT when a baseline was discovered and the current value
strictly exceeds it, OK otherwise; always followed by one metric carrying
the current value. -/
def _check_against_discovery (value : Int) (discovered_value : Option Int)
    (label : String) (metric_name : String) : List CheckOutput :=
  (match discovered_value with
   | some d =>
     if value > d then
       [CheckOutput.result State.CRIT
          s!"{label}: {value} (during discovery: {d}) (!!)"]
     else
       [CheckOutput.result State.OK s!"{label}: {value}"]
   | none => [CheckOutput.result State.OK s!"{label}: {value}"])
  ++ [CheckOutput.metric metric_name value]

/-- Modelled from the spec: the host framework `check_levels` utility with
optional fixed lower levels `(warn, crit)` — CRIT when the value is below
the critical floor, WARN when below the warning floor, OK otherwise (always
OK without levels); a metric is emitted only when a metric name is given. -/
def check_levels (value : Int) (levels_lower : Option (Int × Int))
    (label : String) (render_func : Int → String)
    (metric_name : Option String) : List CheckOutput :=
  let st := match levels_lower with
    | none => State.OK
    | some wc =>
      if value < wc.2 then State.CRIT
      else if value < wc.1 then State.WARN
      else State.OK
  [CheckOutput.result st (label ++ ": " ++ render_func value)]
  ++ (match metric_name with
      | some m => [CheckOutput.metric m value]
      | none => [])

/-- Modelled from the spec: `render.timespan` — elapsed-time formatting of
a duration value (the exact string is irrelevant to the evaluation). -/
def render_timespan (v : Int) : String :=
  s!"{v} seconds"

/-- The per-item persistent key-value store of the rate tracker. -/
def ValueStore : Type := List (String × (ℚ × Int))

/-- Store lookup by key. -/
def ValueStore.lookup (s : ValueStore) (k : String) : Option (ℚ × Int) :=
  (List.find? (fun e => e.1 == k) s).map fun e => e.2

/-- Store update at a key (dictionary assignment). -/
def ValueStore.set (s : ValueStore) (k : String) (v : ℚ × Int) : ValueStore :=
  (k, v) :: List.filter (fun e => !(e.1 == k)) s

/-- Modelled from the spec: the host framework rate utility
`get_rate(store, key, now, value)` — stores the pair `(now, value)` and
returns the per-second rate against the previously stored sample; `none`
(no alertable result) on the first observation, and `none` when no positive
time has elapsed, so that no division by zero occurs. -/
def get_rate (store : ValueStore) (key : String) (now : ℚ) (value : Int) :
    ValueStore × Option ℚ :=
  let prev := store.lookup key
  let store' := store.set key (now, value)
  match prev with
  | none => (store', none)
  | some tv =>
    if now ≤ tv.1 then (store', none)
    else (store', some (((value : ℚ) - (tv.2 : ℚ)) / (now - tv.1)))

/-- `MAX_COMMAND_TIMEOUTS_PER_HOUR = 100`. -/
def MAX_COMMAND_TIMEOUTS_PER_HOUR : Nat := 100

/-- `_check_command_timeout`: the rate-based rule for attribute 188.
Nothing when the attribute is absent; otherwise the per-second rate against
the ceiling of 100 counts per hour decides CRIT vs OK, and a metric with
the raw counter value follows; no rate (first sample) yields no output. -/
def _check_command_timeout (disk : ATAAll) (value_store : ValueStore)
    (now : ℚ) : ValueStore × List CheckOutput :=
  match disk.by_id 188 with
  | none => (value_store, [])
  | some command_timeout_counter =>
    let r := get_rate value_store "cmd_timeout" now command_timeout_counter.raw.value
    match r.2 with
    | none => (r.1, [])
    | some rate =>
      let res :=
        if rate ≥ (MAX_COMMAND_TIMEOUTS_PER_HOUR : ℚ) / (60 * 60) then
          CheckOutput.result State.CRIT
            s!"Command Timeout Counter: {command_timeout_counter.raw.value} (counter increased more than {MAX_COMMAND_TIMEOUTS_PER_HOUR} counts / h (!!))"
        else
          CheckOutput.result State.OK
            s!"Command Timeout Counter: {command_timeout_counter.raw.value}"
      (r.1, [res, CheckOutput.metric "harddrive_cmd_timeouts" command_timeout_counter.raw.value])

/-- Source block for attribute 5 (Reallocated sectors) of `_check_smart_ata`. -/
def checkId5 (params : AtaParams) (disk : ATAAll) : List CheckOutput :=
  match disk.by_id 5 with
  | some reallocated_sector_count =>
    _check_against_discovery reallocated_sector_count.raw.value params.id_5
      "Reallocated sectors" "harddrive_reallocated_sectors"
  | none => []

/-- Source block for attribute 9 (Powered on) of `_check_smart_ata`. -/
def checkId9 (disk : ATAAll) : List CheckOutput :=
  match disk.by_id 9 with
  | some power_on_hours =>
    check_levels power_on_hours.raw.value none "Powered on" render_timespan
      (some "uptime")
  | none => []

/-- Source block for attribute 10 (Spin retries) of `_check_smart_ata`. -/
def checkId10 (params : AtaParams) (disk : ATAAll) : List CheckOutput :=
  match disk.by_id 10 with
  | some spin_retries =>
    _check_against_discovery spin_retries.raw.value params.id_10
      "Spin retries" "harddrive_spin_retries"
  | none => []

/-- Source block for attribute 12 (Power cycles) of `_check_smart_ata`. -/
def checkId12 (disk : ATAAll) : List CheckOutput :=
  match disk.by_id 12 with
  | some power_cycles =>
    check_levels power_cycles.raw.value none "Power cycles" toString
      (some "harddrive_power_cycles")
  | none => []

/-- Source block for attribute 184 (End-to-End Errors) of `_check_smart_ata`. -/
def checkId184 (params : AtaParams) (disk : ATAAll) : List CheckOutput :=
  match disk.by_id 184 with
  | some end_to_end_errors =>
    _check_against_discovery end_to_end_errors.raw.value params.id_184
      "End-to-End Errors" "harddrive_end_to_end_errors"
  | none => []

/-- Source block for attribute 187 (Uncorrectable errors) of `_check_smart_ata`. -/
def checkId187 (params : AtaParams) (disk : ATAAll) : List CheckOutput :=
  match disk.by_id 187 with
  | some uncorrectable_errors =>
    _check_against_discovery uncorrectable_errors.raw.value params.id_187
      "Uncorrectable errors" "harddrive_uncorrectable_errors"
  | none => []

/-- Source block for attribute 196 (Reallocated events) of `_check_smart_ata`:
the regression result plus the normalized-value lower-bound result. -/
def checkId196 (params : AtaParams) (disk : ATAAll) : List CheckOutput :=
  match disk.by_id 196 with
  | some reallocated_events =>
    _check_against_discovery reallocated_events.raw.value params.id_196
      "Reallocated events" "harddrive_reallocated_events"
    ++ check_levels reallocated_events.value
      (some (reallocated_events.thresh, reallocated_events.thresh))
      "Normalized value" toString none
  | none => []

/-- Source block for attribute 197 (Pending sectors) of `_check_smart_ata`. -/
def checkId197 (params : AtaParams) (disk : ATAAll) : List CheckOutput :=
  match disk.by_id 197 with
  | some pending_sectors =>
    _check_against_discovery pending_sectors.raw.value params.id_197
      "Pending sectors" "harddrive_pending_sectors"
  | none => []

/-- Source block for attribute 199 (CRC errors) of `_check_smart_ata`:
the label and metric pair is chosen by the vendor attribute name. -/
def checkId199 (params : AtaParams) (disk : ATAAll) : List CheckOutput :=
  match disk.by_id 199 with
  | some crc_errors =>
    if crc_errors.name == "UDMA_CRC_Error_Count" then
      _check_against_discovery crc_errors.raw.value params.id_199
        "UDMA CRC errors" "harddrive_udma_crc_errors"
    else
      _check_against_discovery crc_errors.raw.value params.id_199
        "CRC errors" "harddrive_crc_errors"
  | none => []

/-- `_check_smart_ata`: resolve the disk by the discovered identity key
(silent skip when absent or not ATA), then evaluate every present tracked
attribute in source order; returns the updated rate store and the emitted
outputs. -/
def _check_smart_ata (item : String) (params : AtaParams) (sec : Section)
    (value_store : ValueStore) (now : ℚ) : ValueStore × List CheckOutput :=
  match sec.get params.key with
  | some (StorageDevice.ata disk) =>
    let ct := _check_command_timeout disk value_store now
    (ct.1,
      checkId5 params disk ++ checkId9 disk ++ checkId10 params disk
      ++ checkId12 disk ++ checkId184 params disk ++ checkId187 params disk
      ++ ct.2 ++ checkId196 params disk ++ checkId197 params disk
      ++ checkId199 params disk)
  | _ => (value_store, [])

/-- One check invocation with the persisted service state threaded
explicitly: the baseline parameters (re-supplied by the host on every call)
and the rate store.  The source mutates only the store (inside `get_rate`);
it never assigns into `params`, so the translation returns them untouched. -/
def check_smart_ata_state (item : String) (sec : Section)
    (st : AtaParams × ValueStore) (now : ℚ) :
    (AtaParams × ValueStore) × List CheckOutput :=
  let r := _check_smart_ata item st.1 sec st.2 now
  ((st.1, r.1), r.2)

/-- The number of metrics named `n` among the outputs. -/
def metricCount (n : String) (out : List CheckOutput) : Nat :=
  (out.filter fun o => match o with
    | CheckOutput.metric m _ => m == n
    | _ => false).length

/-- The metrics among the outputs. -/
def metricsOf (out : List CheckOutput) : List CheckOutput :=
  out.filter fun o => match o with
    | CheckOutput.metric _ _ => true
    | _ => false

/-! ## Fixture data used by the witnesses -/

/-- A concrete SMART attribute entry. -/
def mkAttr (i : Nat) (nm : String) (v t rv : Int) : ATAAttribute :=
  { id := i, name := nm, value := v, thresh := t, raw := { value := rv } }

/-- A concrete ATA disk exposing the given attribute collection. -/
def mkDisk (attrs : List ATAAttribute) : ATAAll :=
  { device := { name := "sda", serial := "S1" }
    temperature := none
    ata_smart_attributes := some attrs }

/-- A one-disk section holding the given disk under key ("sda", "S1"). -/
def mkSec (d : StorageDevice) : Section :=
  ⟨[(("sda", "S1"), d)]⟩

/-- Baseline parameters with every tracked ID absent, keyed ("sda", "S1"). -/
def emptyParams : AtaParams :=
  { key := ("sda", "S1"), id_5 := none, id_10 := none, id_184 := none
    id_187 := none, id_188 := none, id_196 := none, id_197 := none
    id_199 := none }

/-- A rate store primed with one sample for the command-timeout key. -/
def primedStore (t : ℚ) (v : Int) : ValueStore :=
  [("cmd_timeout", (t, v))]

/-! ## Helper lemmas -/

theorem metricCount_append (n : String) (xs ys : List CheckOutput) :
    metricCount n (xs ++ ys) = metricCount n xs + metricCount n ys := by
  simp [metricCount, List.filter_append]

theorem metricsOf_cad (value : Int) (d : Option Int) (label m : String) :
    metricsOf (_check_against_discovery value d label m) =
      [CheckOutput.metric m value] := by
  cases d with
  | none => simp [metricsOf, _check_against_discovery]
  | some B =>
    by_cases h : value > B <;>
      simp [metricsOf, _check_against_discovery, h]

theorem metricCount_cad_eq (value : Int) (d : Option Int) (label m : String) :
    metricCount m (_check_against_discovery value d label m) = 1 := by
  cases d with
  | none => simp [metricCount, _check_against_discovery]
  | some B =>
    by_cases h : value > B <;>
      simp [metricCount, _check_against_discovery, h]

theorem metricCount_cad_ne (value : Int) (d : Option Int) (label m n : String)
    (h : m ≠ n) :
    metricCount n (_check_against_discovery value d label m) = 0 := by
  cases d with
  | none => simp [metricCount, _check_against_discovery, h]
  | some B =>
    by_cases hv : value > B <;>
      simp [metricCount, _check_against_discovery, hv, h]

theorem metricCount_check_levels_ne (value : Int) (lv : Option (Int × Int))
    (label : String) (rf : Int → String) (mn : Option String) (n : String)
    (h : ∀ m, mn = some m → m ≠ n) :
    metricCount n (check_levels value lv label rf mn) = 0 := by
  cases mn with
  | none => simp [metricCount, check_levels]
  | some m => simp [metricCount, check_levels, h m rfl]

theorem metricCount_ct_ne (disk : ATAAll) (store : ValueStore) (now : ℚ)
    (n : String) (h : n ≠ "harddrive_cmd_timeouts") :
    metricCount n (_check_command_timeout disk store now).2 = 0 := by
  unfold _check_command_timeout
  cases disk.by_id 188 with
  | none => simp [metricCount]
  | some a =>
    simp only []
    cases hr : (get_rate store "cmd_timeout" now a.raw.value).2 with
    | none => simp [hr, metricCount]
    | some rate =>
      by_cases hc : rate ≥ (MAX_COMMAND_TIMEOUTS_PER_HOUR : ℚ) / (60 * 60) <;>
        simp [hr, hc, metricCount, Ne.symm h]

theorem get_rate_fst (store : ValueStore) (key : String) (now : ℚ) (v : Int) :
    (get_rate store key now v).1 = ValueStore.set store key (now, v) := by
  unfold get_rate
  cases store.lookup key with
  | none => rfl
  | some tv => by_cases h : now ≤ tv.1 <;> simp [h]

theorem find?_filter_ne (k kd : String) (h : k ≠ kd) :
    ∀ l : List (String × (ℚ × Int)),
      List.find? (fun e => e.1 == k)
          (List.filter (fun e => !(e.1 == kd)) l) =
        List.find? (fun e => e.1 == k) l := by
  intro l
  induction l with
  | nil => rfl
  | cons e tl ih =>
    by_cases he : e.1 = k
    · have hekd : (e.1 == kd) = false := by
        rw [beq_eq_false_iff_ne, he]
        exact h
      have hek : (e.1 == k) = true := beq_iff_eq.mpr he
      simp only [List.filter_cons, hekd, Bool.not_false, if_pos,
        List.find?_cons, hek]
    · have hek : (e.1 == k) = false := beq_eq_false_iff_ne.mpr he
      by_cases hkd : e.1 = kd
      · have hekd : (e.1 == kd) = true := beq_iff_eq.mpr hkd
        simp only [List.filter_cons, hekd, Bool.not_true, Bool.false_eq_true,
          if_false, List.find?_cons, hek, ih]
      · have hekd : (e.1 == kd) = false := beq_eq_false_iff_ne.mpr hkd
        simp only [List.filter_cons, hekd, Bool.not_false, if_pos,
          List.find?_cons, hek, ih]

theorem lookup_set_ne (store : ValueStore) (k kd : String) (v : ℚ × Int)
    (h : k ≠ kd) :
    ValueStore.lookup (ValueStore.set store kd v) k =
      ValueStore.lookup store k := by
  unfold ValueStore.set ValueStore.lookup
  rw [List.find?_cons_of_neg, find?_filter_ne k kd h store]
  simp [beq_eq_false_iff_ne.mpr (Ne.symm h)]

theorem ct_store_frame (disk : ATAAll) (store : ValueStore) (now : ℚ)
    (k : String) (h : k ≠ "cmd_timeout") :
    ValueStore.lookup (_check_command_timeout disk store now).1 k =
      ValueStore.lookup store k := by
  unfold _check_command_timeout
  cases hb : disk.by_id 188 with
  | none => rfl
  | some a =>
    have hfst := get_rate_fst store "cmd_timeout" now a.raw.value
    cases hr : (get_rate store "cmd_timeout" now a.raw.value).2 with
    | none => simp [hr, hfst, lookup_set_ne store k "cmd_timeout" _ h]
    | some rate => simp [hr, hfst, lookup_set_ne store k "cmd_timeout" _ h]

theorem length_filterMap_eq_length_filter {α β : Type _} (f : α → Option β)
    (q : α → Bool) (h : ∀ a, (f a).isSome = q a) :
    ∀ l : List α, (l.filterMap f).length = (l.filter q).length := by
  intro l
  induction l with
  | nil => rfl
  | cons x tl ih =>
    cases hf : f x with
    | none =>
      have hq : q x = false := by rw [← h]; simp [hf]
      simp [List.filterMap_cons, hf, List.filter_cons, hq, ih]
    | some b =>
      have hq : q x = true := by rw [← h]; simp [hf]
      simp [List.filterMap_cons, hf, List.filter_cons, hq, ih]

theorem metricCount_checkId5 (p : AtaParams) (disk : ATAAll) (n : String)
    (h : n ≠ "harddrive_reallocated_sectors") :
    metricCount n (checkId5 p disk) = 0 := by
  unfold checkId5
  cases disk.by_id 5 with
  | none => simp [metricCount]
  | some a => exact metricCount_cad_ne _ _ _ _ _ (Ne.symm h)

theorem metricCount_checkId9 (disk : ATAAll) (n : String)
    (h : n ≠ "uptime") :
    metricCount n (checkId9 disk) = 0 := by
  unfold checkId9
  cases disk.by_id 9 with
  | none => simp [metricCount]
  | some a =>
    exact metricCount_check_levels_ne _ _ _ _ _ _
      (fun m hm => by cases hm; exact Ne.symm h)

theorem metricCount_checkId10 (p : AtaParams) (disk : ATAAll) (n : String)
    (h : n ≠ "harddrive_spin_retries") :
    metricCount n (checkId10 p disk) = 0 := by
  unfold checkId10
  cases disk.by_id 10 with
  | none => simp [metricCount]
  | some a => exact metricCount_cad_ne _ _ _ _ _ (Ne.symm h)

theorem metricCount_checkId12 (disk : ATAAll) (n : String)
    (h : n ≠ "harddrive_power_cycles") :
    metricCount n (checkId12 disk) = 0 := by
  unfold checkId12
  cases disk.by_id 12 with
  | none => simp [metricCount]
  | some a =>
    exact metricCount_check_levels_ne _ _ _ _ _ _
      (fun m hm => by cases hm; exact Ne.symm h)

theorem metricCount_checkId184 (p : AtaParams) (disk : ATAAll) (n : String)
    (h : n ≠ "harddrive_end_to_end_errors") :
    metricCount n (checkId184 p disk) = 0 := by
  unfold checkId184
  cases disk.by_id 184 with
  | none => simp [metricCount]
  | some a => exact metricCount_cad_ne _ _ _ _ _ (Ne.symm h)

theorem metricCount_checkId187 (p : AtaParams) (disk : ATAAll) (n : String)
    (h : n ≠ "harddrive_uncorrectable_errors") :
    metricCount n (checkId187 p disk) = 0 := by
  unfold checkId187
  cases disk.by_id 187 with
  | none => simp [metricCount]
  | some a => exact metricCount_cad_ne _ _ _ _ _ (Ne.symm h)

theorem metricCount_checkId196 (p : AtaParams) (disk : ATAAll) (n : String)
    (h : n ≠ "harddrive_reallocated_events") :
    metricCount n (checkId196 p disk) = 0 := by
  unfold checkId196
  cases disk.by_id 196 with
  | none => simp [metricCount]
  | some a =>
    rw [metricCount_append, metricCount_cad_ne _ _ _ _ _ (Ne.symm h),
      metricCount_check_levels_ne _ _ _ _ _ _ (fun m hm => by cases hm)]

theorem metricCount_checkId197 (p : AtaParams) (disk : ATAAll) (n : String)
    (h : n ≠ "harddrive_pending_sectors") :
    metricCount n (checkId197 p disk) = 0 := by
  unfold checkId197
  cases disk.by_id 197 with
  | none => simp [metricCount]
  | some a => exact metricCount_cad_ne _ _ _ _ _ (Ne.symm h)

theorem metricCount_checkId199_udma (p : AtaParams) (disk : ATAAll)
    (a : ATAAttribute) (ha : disk.by_id 199 = some a)
    (hn : a.name = "UDMA_CRC_Error_Count") :
    metricCount "harddrive_udma_crc_errors" (checkId199 p disk) = 1 ∧
    metricCount "harddrive_crc_errors" (checkId199 p disk) = 0 := by
  unfold checkId199
  rw [ha]
  simp only [hn]
  constructor
  · simpa using metricCount_cad_eq a.raw.value p.id_199 "UDMA CRC errors"
      "harddrive_udma_crc_errors"
  · simpa using metricCount_cad_ne a.raw.value p.id_199 "UDMA CRC errors"
      "harddrive_udma_crc_errors" "harddrive_crc_errors" (by decide)

theorem metricCount_checkId199_generic (p : AtaParams) (disk : ATAAll)
    (a : ATAAttribute) (ha : disk.by_id 199 = some a)
    (hn : a.name ≠ "UDMA_CRC_Error_Count") :
    metricCount "harddrive_crc_errors" (checkId199 p disk) = 1 ∧
    metricCount "harddrive_udma_crc_errors" (checkId199 p disk) = 0 := by
  unfold checkId199
  rw [ha]
  simp only [beq_eq_false_iff_ne.mpr hn, Bool.false_eq_true, if_false]
  constructor
  · simpa using metricCount_cad_eq a.raw.value p.id_199 "CRC errors"
      "harddrive_crc_errors"
  · simpa using metricCount_cad_ne a.raw.value p.id_199 "CRC errors"
      "harddrive_crc_errors" "harddrive_udma_crc_errors" (by decide)

/-! ## Claim theorems -/

/-- C1: for every attribute in the regression set evaluated by the shared
`_check_against_discovery` rule — with no recorded baseline every current
raw value yields OK; with a recorded baseline B a current value strictly
greater than B yields CRITICAL with a message showing both values, and a
current value at most B yields OK; in every case exactly one metric is
emitted, carrying the current raw value. -/
theorem regression_rule_cases (value : Int) (label metric_name : String) :
    (_check_against_discovery value none label metric_name =
      [CheckOutput.result State.OK s!"{label}: {value}",
       CheckOutput.metric metric_name value]) ∧
    (∀ B : Int, value > B →
      _check_against_discovery value (some B) label metric_name =
        [CheckOutput.result State.CRIT
           s!"{label}: {value} (during discovery: {B}) (!!)",
         CheckOutput.metric metric_name value]) ∧
    (∀ B : Int, value ≤ B →
      _check_against_discovery value (some B) label metric_name =
        [CheckOutput.result State.OK s!"{label}: {value}",
         CheckOutput.metric metric_name value]) ∧
    (∀ d : Option Int,
      metricsOf (_check_against_discovery value d label metric_name) =
        [CheckOutput.metric metric_name value]) := by
  refine ⟨rfl, fun B hB => ?_, fun B hB => ?_,
    fun d => metricsOf_cad value d label metric_name⟩
  · simp [_check_against_discovery, hB]
  · simp [_check_against_discovery, not_lt.mpr hB]

/-- Witness for C1 at value 7, baseline 3 (CRITICAL branch). -/
theorem regression_rule_cases_witness :
    _check_against_discovery 7 (some 3) "Reallocated sectors"
        "harddrive_reallocated_sectors" =
      [CheckOutput.result State.CRIT
         "Reallocated sectors: 7 (during discovery: 3) (!!)",
       CheckOutput.metric "harddrive_reallocated_sectors" 7] :=
  (regression_rule_cases 7 "Reallocated sectors"
    "harddrive_reallocated_sectors").2.1 3 (by decide)

/-- C2: attribute 188 is never evaluated against a baseline — the output of
the attribute check is unchanged under any replacement of the id_188
baseline parameter, even a non-null one. -/
theorem attr188_baseline_independent (item : String) (p : AtaParams)
    (sec : Section) (store : ValueStore) (now : ℚ) (v : Option Int) :
    _check_smart_ata item { p with id_188 := v } sec store now =
      _check_smart_ata item p sec store now := rfl

/-- Witness for C2: a concrete disk exposing attribute 188, checked with a
null and with a non-null id_188 baseline, yields the same output. -/
theorem attr188_baseline_independent_witness :
    _check_smart_ata "sda"
        { emptyParams with id_188 := some 3 }
        (mkSec (StorageDevice.ata (mkDisk [mkAttr 188 "Command_Timeout" 100 0 7])))
        (primedStore 0 0) 3600 =
      _check_smart_ata "sda" emptyParams
        (mkSec (StorageDevice.ata (mkDisk [mkAttr 188 "Command_Timeout" 100 0 7])))
        (primedStore 0 0) 3600 :=
  attr188_baseline_independent "sda" emptyParams
    (mkSec (StorageDevice.ata (mkDisk [mkAttr 188 "Command_Timeout" 100 0 7])))
    (primedStore 0 0) 3600 (some 3)

/-- C6: both check functions skip silently — when the disk keyed by the
discovered identity key is absent or not an ATA record, the temperature
check and the attribute check produce no results; the temperature check
also produces none when the resolved disk reports no temperature. -/
theorem silent_skip_no_results :
    (∀ item tp sec, Section.get sec tp.key = none →
      check_smart_ata_temp item tp sec = []) ∧
    (∀ item tp sec, Section.get sec tp.key = some StorageDevice.nonATA →
      check_smart_ata_temp item tp sec = []) ∧
    (∀ item tp sec disk, Section.get sec tp.key = some (StorageDevice.ata disk) →
      disk.temperature = none → check_smart_ata_temp item tp sec = []) ∧
    (∀ item p sec store now, Section.get sec p.key = none →
      _check_smart_ata item p sec store now = (store, [])) ∧
    (∀ item p sec store now, Section.get sec p.key = some StorageDevice.nonATA →
      _check_smart_ata item p sec store now = (store, [])) := by
  refine ⟨fun item tp sec h => ?_, fun item tp sec h => ?_,
    fun item tp sec disk h ht => ?_, fun item p sec store now h => ?_,
    fun item p sec store now h => ?_⟩
  · simp [check_smart_ata_temp, h]
  · simp [check_smart_ata_temp, h]
  · simp [check_smart_ata_temp, h, ht]
  · simp [_check_smart_ata, h]
  · simp [_check_smart_ata, h]

/-- Witness for C6: the empty section and a non-ATA / temperature-less
disk each produce no results. -/
theorem silent_skip_no_results_witness :
    check_smart_ata_temp "sda" { key := ("sda", "S1"), levels := (35, 40) }
        ⟨[]⟩ = [] ∧
    check_smart_ata_temp "sda" { key := ("sda", "S1"), levels := (35, 40) }
        (mkSec StorageDevice.nonATA) = [] ∧
    check_smart_ata_temp "sda" { key := ("sda", "S1"), levels := (35, 40) }
        (mkSec (StorageDevice.ata (mkDisk []))) = [] ∧
    _check_smart_ata "sda" emptyParams ⟨[]⟩ [] 0 = ([], []) :=
  ⟨silent_skip_no_results.1 "sda" _ _ rfl,
   silent_skip_no_results.2.1 "sda" _ _ rfl,
   silent_skip_no_results.2.2.1 "sda" _ _ (mkDisk []) rfl rfl,
   silent_skip_no_results.2.2.2.1 "sda" _ _ _ _ rfl⟩

/-- C3: the rate-based check on attribute 188 — nothing when the attribute
is absent; with a primed store and elapsed time, a per-second rate at or
above the 100-per-hour ceiling yields CRITICAL with a message carrying the
raw counter value and the ceiling, a rate below it yields OK with the raw
value, and a metric with the raw counter value follows in both cases; with
the store primed at (0, 0), a call at (101, 3600) is CRITICAL and a call at
(50, 3600) is OK. -/
theorem command_timeout_rate_rule :
    (∀ disk store now, ATAAll.by_id disk 188 = none →
      _check_command_timeout disk store now = (store, [])) ∧
    (∀ disk store now (a : ATAAttribute) (t0 : ℚ) (v0 : Int),
      ATAAll.by_id disk 188 = some a →
      ValueStore.lookup store "cmd_timeout" = some (t0, v0) → t0 < now →
      (((a.raw.value : ℚ) - (v0 : ℚ)) / (now - t0) ≥ (100 : ℚ) / 3600 →
        (_check_command_timeout disk store now).2 =
          [CheckOutput.result State.CRIT
             s!"Command Timeout Counter: {a.raw.value} (counter increased more than {MAX_COMMAND_TIMEOUTS_PER_HOUR} counts / h (!!))",
           CheckOutput.metric "harddrive_cmd_timeouts" a.raw.value]) ∧
      (((a.raw.value : ℚ) - (v0 : ℚ)) / (now - t0) < (100 : ℚ) / 3600 →
        (_check_command_timeout disk store now).2 =
          [CheckOutput.result State.OK
             s!"Command Timeout Counter: {a.raw.value}",
           CheckOutput.metric "harddrive_cmd_timeouts" a.raw.value])) ∧
    (_check_command_timeout (mkDisk [mkAttr 188 "Command_Timeout" 100 0 101])
        (primedStore 0 0) 3600).2 =
      [CheckOutput.result State.CRIT
         "Command Timeout Counter: 101 (counter increased more than 100 counts / h (!!))",
       CheckOutput.metric "harddrive_cmd_timeouts" 101] ∧
    (_check_command_timeout (mkDisk [mkAttr 188 "Command_Timeout" 100 0 50])
        (primedStore 0 0) 3600).2 =
      [CheckOutput.result State.OK "Command Timeout Counter: 50",
       CheckOutput.metric "harddrive_cmd_timeouts" 50] := by
  have hceil : (MAX_COMMAND_TIMEOUTS_PER_HOUR : ℚ) / (60 * 60) = 100 / 3600 := by
    norm_num [MAX_COMMAND_TIMEOUTS_PER_HOUR]
  have habs : ∀ disk store now, ATAAll.by_id disk 188 = none →
      _check_command_timeout disk store now = (store, []) := by
    intro disk store now h
    unfold _check_command_timeout
    rw [h]
  have hgen : ∀ disk store now (a : ATAAttribute) (t0 : ℚ) (v0 : Int),
      ATAAll.by_id disk 188 = some a →
      ValueStore.lookup store "cmd_timeout" = some (t0, v0) → t0 < now →
      (((a.raw.value : ℚ) - (v0 : ℚ)) / (now - t0) ≥ (100 : ℚ) / 3600 →
        (_check_command_timeout disk store now).2 =
          [CheckOutput.result State.CRIT
             s!"Command Timeout Counter: {a.raw.value} (counter increased more than {MAX_COMMAND_TIMEOUTS_PER_HOUR} counts / h (!!))",
           CheckOutput.metric "harddrive_cmd_timeouts" a.raw.value]) ∧
      (((a.raw.value : ℚ) - (v0 : ℚ)) / (now - t0) < (100 : ℚ) / 3600 →
        (_check_command_timeout disk store now).2 =
          [CheckOutput.result State.OK
             s!"Command Timeout Counter: {a.raw.value}",
           CheckOutput.metric "harddrive_cmd_timeouts" a.raw.value]) := by
    intro disk store now a t0 v0 ha hl ht
    have hrate : (get_rate store "cmd_timeout" now a.raw.value).2 =
        some (((a.raw.value : ℚ) - (v0 : ℚ)) / (now - t0)) := by
      unfold get_rate
      rw [hl]
      simp [not_le.mpr ht]
    constructor
    · intro hge
      have hcond : ((a.raw.value : ℚ) - (v0 : ℚ)) / (now - t0) ≥
          (MAX_COMMAND_TIMEOUTS_PER_HOUR : ℚ) / (60 * 60) := by
        rw [hceil]
        exact hge
      unfold _check_command_timeout
      rw [ha]
      simp only [hrate, if_pos hcond]
    · intro hlt
      have hcond : ¬ (((a.raw.value : ℚ) - (v0 : ℚ)) / (now - t0) ≥
          (MAX_COMMAND_TIMEOUTS_PER_HOUR : ℚ) / (60 * 60)) := by
        rw [ge_iff_le, hceil]
        exact not_le.mpr hlt
      unfold _check_command_timeout
      rw [ha]
      simp only [hrate, if_neg hcond]
  refine ⟨habs, hgen, ?_, ?_⟩
  · exact (hgen (mkDisk [mkAttr 188 "Command_Timeout" 100 0 101])
      (primedStore 0 0) 3600 (mkAttr 188 "Command_Timeout" 100 0 101) 0 0
      rfl rfl (by norm_num)).1 (by norm_num [mkAttr])
  · exact (hgen (mkDisk [mkAttr 188 "Command_Timeout" 100 0 50])
      (primedStore 0 0) 3600 (mkAttr 188 "Command_Timeout" 100 0 50) 0 0
      rfl rfl (by norm_num)).2 (by norm_num [mkAttr])

/-- Witness for C3: the CRITICAL scenario of the claim, store primed at
(0, 0) and a call with counter 101 at time 3600. -/
theorem command_timeout_rate_rule_witness :
    (_check_command_timeout (mkDisk [mkAttr 188 "Command_Timeout" 100 0 101])
        (primedStore 0 0) 3600).2 =
      [CheckOutput.result State.CRIT
         "Command Timeout Counter: 101 (counter increased more than 100 counts / h (!!))",
       CheckOutput.metric "harddrive_cmd_timeouts" 101] :=
  command_timeout_rate_rule.2.2.1

/-- C8: the attribute check is a pure function of its inputs — identical
store state, input data and timestamp give identical results — and
replaying a (value, timestamp) pair through a store already primed at that
same timestamp takes the guarded no-rate branch, producing no output for
attribute 188 instead of dividing by the zero time delta. -/
theorem check_replay_idempotent :
    (∀ item p sec store now,
      _check_smart_ata item p sec store now =
        _check_smart_ata item p sec store now) ∧
    (∀ store (now : ℚ) (v w : Int),
      ValueStore.lookup store "cmd_timeout" = some (now, v) →
      get_rate store "cmd_timeout" now w =
        (ValueStore.set store "cmd_timeout" (now, w), none)) ∧
    (∀ disk store (now : ℚ) (v : Int) (a : ATAAttribute),
      ATAAll.by_id disk 188 = some a →
      ValueStore.lookup store "cmd_timeout" = some (now, v) →
      (_check_command_timeout disk store now).2 = []) := by
  refine ⟨fun item p sec store now => rfl, fun store now v w hl => ?_,
    fun disk store now v a ha hl => ?_⟩
  · unfold get_rate
    rw [hl]
    simp
  · unfold _check_command_timeout
    rw [ha]
    have hr : (get_rate store "cmd_timeout" now a.raw.value).2 = none := by
      unfold get_rate
      rw [hl]
      simp
    simp only [hr]

/-- Witness for C8: a store primed at timestamp 3600 replayed at 3600
yields no output for attribute 188. -/
theorem check_replay_idempotent_witness :
    ValueStore.lookup (primedStore 3600 101) "cmd_timeout" = some (3600, 101) ∧
    (_check_command_timeout (mkDisk [mkAttr 188 "Command_Timeout" 100 0 101])
        (primedStore 3600 101) 3600).2 = [] :=
  ⟨rfl,
   check_replay_idempotent.2.2
     (mkDisk [mkAttr 188 "Command_Timeout" 100 0 101]) (primedStore 3600 101)
     3600 101 (mkAttr 188 "Command_Timeout" 100 0 101) rfl rfl⟩

/-- C9: the check path never rewrites the persisted baseline parameters —
an invocation returns the parameter record unchanged — and the only shared
state it mutates is the rate store, at the command-timeout key alone: every
other store key reads the same before and after. -/
theorem check_frame_params_store (item : String) (sec : Section)
    (p : AtaParams) (store : ValueStore) (now : ℚ) :
    (check_smart_ata_state item sec (p, store) now).1.1 = p ∧
    (∀ k, k ≠ "cmd_timeout" →
      ValueStore.lookup (_check_smart_ata item p sec store now).1 k =
        ValueStore.lookup store k) := by
  refine ⟨rfl, fun k hk => ?_⟩
  unfold _check_smart_ata
  cases hget : sec.get p.key with
  | none => rfl
  | some dev =>
    cases dev with
    | nonATA => rfl
    | ata disk => exact ct_store_frame disk store now k hk

/-- Witness for C9: a concrete invocation leaves the parameters and a
foreign store key untouched. -/
theorem check_frame_params_store_witness :
    (check_smart_ata_state "sda"
        (mkSec (StorageDevice.ata (mkDisk [mkAttr 188 "Command_Timeout" 100 0 7])))
        (emptyParams, primedStore 0 0) 3600).1.1 = emptyParams ∧
    ValueStore.lookup
        (_check_smart_ata "sda" emptyParams
          (mkSec (StorageDevice.ata (mkDisk [mkAttr 188 "Command_Timeout" 100 0 7])))
          (primedStore 0 0) 3600).1 "other_key" =
      ValueStore.lookup (primedStore 0 0) "other_key" :=
  ⟨(check_frame_params_store "sda"
      (mkSec (StorageDevice.ata (mkDisk [mkAttr 188 "Command_Timeout" 100 0 7])))
      emptyParams (primedStore 0 0) 3600).1,
   (check_frame_params_store "sda"
      (mkSec (StorageDevice.ata (mkDisk [mkAttr 188 "Command_Timeout" 100 0 7])))
      emptyParams (primedStore 0 0) 3600).2 "other_key" (by decide)⟩

/-- C4: when attribute 196 is present, the check emits the regression
result on its raw value and a separate normalized-vs-threshold result as
two independent consecutive outputs inside the check run, and whenever the
current raw value exceeds the recorded baseline the regression result is
CRITICAL — with no hypothesis on how the normalized value relates to its
threshold, so neither result suppresses or modifies the other. -/
theorem attr196_two_independent_results (item : String) (p : AtaParams)
    (sec : Section) (store : ValueStore) (now : ℚ) (disk : ATAAll)
    (a : ATAAttribute)
    (hdisk : Section.get sec p.key = some (StorageDevice.ata disk))
    (ha : ATAAll.by_id disk 196 = some a) :
    (∃ pre post,
      (_check_smart_ata item p sec store now).2 =
        pre ++ (_check_against_discovery a.raw.value p.id_196
                  "Reallocated events" "harddrive_reallocated_events"
                ++ check_levels a.value (some (a.thresh, a.thresh))
                  "Normalized value" toString none) ++ post) ∧
    (∀ B : Int, p.id_196 = some B → a.raw.value > B →
      _check_against_discovery a.raw.value p.id_196
          "Reallocated events" "harddrive_reallocated_events" =
        [CheckOutput.result State.CRIT
           s!"Reallocated events: {a.raw.value} (during discovery: {B}) (!!)",
         CheckOutput.metric "harddrive_reallocated_events" a.raw.value]) := by
  constructor
  · refine ⟨checkId5 p disk ++ checkId9 disk ++ checkId10 p disk
      ++ checkId12 disk ++ checkId184 p disk ++ checkId187 p disk
      ++ (_check_command_timeout disk store now).2,
      checkId197 p disk ++ checkId199 p disk, ?_⟩
    unfold _check_smart_ata
    rw [hdisk]
    have h196 : checkId196 p disk =
        _check_against_discovery a.raw.value p.id_196
          "Reallocated events" "harddrive_reallocated_events"
        ++ check_levels a.value (some (a.thresh, a.thresh))
          "Normalized value" toString none := by
      unfold checkId196
      rw [ha]
    simp [h196, List.append_assoc]
  · intro B hB hgt
    rw [hB]
    simp only [_check_against_discovery, if_pos hgt]
    rfl

/-- Witness for C4: a disk whose attribute 196 has raw value 7 against
baseline 3 and normalized value 10 below threshold 36 — the regression
result is CRITICAL and both results are emitted. -/
theorem attr196_two_independent_results_witness :
    (∃ pre post,
      (_check_smart_ata "sda" { emptyParams with id_196 := some 3 }
          (mkSec (StorageDevice.ata
            (mkDisk [mkAttr 196 "Reallocated_Event_Count" 10 36 7]))) [] 0).2 =
        pre ++ (_check_against_discovery 7 (some 3)
                  "Reallocated events" "harddrive_reallocated_events"
                ++ check_levels 10 (some (36, 36))
                  "Normalized value" toString none) ++ post) ∧
    _check_against_discovery 7 (some 3)
        "Reallocated events" "harddrive_reallocated_events" =
      [CheckOutput.result State.CRIT
         "Reallocated events: 7 (during discovery: 3) (!!)",
       CheckOutput.metric "harddrive_reallocated_events" 7] := by
  have h := attr196_two_independent_results "sda"
    { emptyParams with id_196 := some 3 }
    (mkSec (StorageDevice.ata
      (mkDisk [mkAttr 196 "Reallocated_Event_Count" 10 36 7])))
    [] 0 (mkDisk [mkAttr 196 "Reallocated_Event_Count" 10 36 7])
    (mkAttr 196 "Reallocated_Event_Count" 10 36 7) rfl rfl
  exact ⟨h.1, h.2 3 rfl (by decide)⟩

/-- C5: with attribute 199 present, the check emits under exactly one of
the two label/metric pairs, chosen solely by equality of the attribute
name with "UDMA_CRC_Error_Count": name equal gives the "UDMA CRC errors"
label with the harddrive_udma_crc_errors metric and no harddrive_crc_errors
metric anywhere in the run; any other name gives the "CRC errors" label
with the harddrive_crc_errors metric and no harddrive_udma_crc_errors
metric — never both. -/
theorem attr199_label_mutually_exclusive (item : String) (p : AtaParams)
    (sec : Section) (store : ValueStore) (now : ℚ) (disk : ATAAll)
    (a : ATAAttribute)
    (hdisk : Section.get sec p.key = some (StorageDevice.ata disk))
    (ha : ATAAll.by_id disk 199 = some a) :
    (a.name = "UDMA_CRC_Error_Count" →
      checkId199 p disk = _check_against_discovery a.raw.value p.id_199
          "UDMA CRC errors" "harddrive_udma_crc_errors" ∧
      metricCount "harddrive_udma_crc_errors"
          (_check_smart_ata item p sec store now).2 = 1 ∧
      metricCount "harddrive_crc_errors"
          (_check_smart_ata item p sec store now).2 = 0) ∧
    (a.name ≠ "UDMA_CRC_Error_Count" →
      checkId199 p disk = _check_against_discovery a.raw.value p.id_199
          "CRC errors" "harddrive_crc_errors" ∧
      metricCount "harddrive_crc_errors"
          (_check_smart_ata item p sec store now).2 = 1 ∧
      metricCount "harddrive_udma_crc_errors"
          (_check_smart_ata item p sec store now).2 = 0) := by
  have hout : (_check_smart_ata item p sec store now).2 =
      checkId5 p disk ++ checkId9 disk ++ checkId10 p disk
      ++ checkId12 disk ++ checkId184 p disk ++ checkId187 p disk
      ++ (_check_command_timeout disk store now).2 ++ checkId196 p disk
      ++ checkId197 p disk ++ checkId199 p disk := by
    unfold _check_smart_ata
    rw [hdisk]
  have hcount : ∀ n : String,
      n ≠ "harddrive_reallocated_sectors" → n ≠ "uptime" →
      n ≠ "harddrive_spin_retries" → n ≠ "harddrive_power_cycles" →
      n ≠ "harddrive_end_to_end_errors" → n ≠ "harddrive_uncorrectable_errors" →
      n ≠ "harddrive_cmd_timeouts" → n ≠ "harddrive_reallocated_events" →
      n ≠ "harddrive_pending_sectors" →
      metricCount n (_check_smart_ata item p sec store now).2 =
        metricCount n (checkId199 p disk) := by
    intro n h1 h2 h3 h4 h5 h6 h7 h8 h9
    rw [hout]
    simp only [metricCount_append]
    rw [metricCount_checkId5 p disk n h1, metricCount_checkId9 disk n h2,
      metricCount_checkId10 p disk n h3, metricCount_checkId12 disk n h4,
      metricCount_checkId184 p disk n h5, metricCount_checkId187 p disk n h6,
      metricCount_ct_ne disk store now n h7, metricCount_checkId196 p disk n h8,
      metricCount_checkId197 p disk n h9]
    simp
  constructor
  · intro hn
    have hm := metricCount_checkId199_udma p disk a ha hn
    refine ⟨?_, ?_, ?_⟩
    · unfold checkId199
      rw [ha]
      simp only [hn]
      simp
    · rw [hcount "harddrive_udma_crc_errors" (by decide) (by decide) (by decide)
        (by decide) (by decide) (by decide) (by decide) (by decide) (by decide)]
      exact hm.1
    · rw [hcount "harddrive_crc_errors" (by decide) (by decide) (by decide)
        (by decide) (by decide) (by decide) (by decide) (by decide) (by decide)]
      exact hm.2
  · intro hn
    have hm := metricCount_checkId199_generic p disk a ha hn
    refine ⟨?_, ?_, ?_⟩
    · unfold checkId199
      rw [ha]
      simp only [beq_eq_false_iff_ne.mpr hn, Bool.false_eq_true, if_false]
    · rw [hcount "harddrive_crc_errors" (by decide) (by decide) (by decide)
        (by decide) (by decide) (by decide) (by decide) (by decide) (by decide)]
      exact hm.1
    · rw [hcount "harddrive_udma_crc_errors" (by decide) (by decide) (by decide)
        (by decide) (by decide) (by decide) (by decide) (by decide) (by decide)]
      exact hm.2

/-- Witness for C5: a disk whose attribute 199 carries the vendor name
"UDMA_CRC_Error_Count" emits the UDMA metric exactly once and the generic
CRC metric not at all. -/
theorem attr199_label_mutually_exclusive_witness :
    metricCount "harddrive_udma_crc_errors"
        (_check_smart_ata "sda" emptyParams
          (mkSec (StorageDevice.ata
            (mkDisk [mkAttr 199 "UDMA_CRC_Error_Count" 200 0 4]))) [] 0).2 = 1 ∧
    metricCount "harddrive_crc_errors"
        (_check_smart_ata "sda" emptyParams
          (mkSec (StorageDevice.ata
            (mkDisk [mkAttr 199 "UDMA_CRC_Error_Count" 200 0 4]))) [] 0).2 = 0 := by
  have h := (attr199_label_mutually_exclusive "sda" emptyParams
    (mkSec (StorageDevice.ata (mkDisk [mkAttr 199 "UDMA_CRC_Error_Count" 200 0 4])))
    [] 0 (mkDisk [mkAttr 199 "UDMA_CRC_Error_Count" 200 0 4])
    (mkAttr 199 "UDMA_CRC_Error_Count" 200 0 4) rfl rfl).1 rfl
  exact ⟨h.2.1, h.2.2⟩

/-- C7: attribute-baseline discovery proposes exactly the ATA disks that
expose a SMART attribute collection — a service is emitted iff such a disk
is in the section, its parameters being the identity key and, for each of
the 8 tracked IDs, the raw value when present and null when absent; the
number of proposals equals the number of eligible disks. -/
theorem discovery_baseline_characterization (params : DiscoveryParam)
    (sec : Section) :
    (∀ s : Service, s ∈ discover_smart_ata params sec ↔
      ∃ key disk, ((key, StorageDevice.ata disk) ∈ sec.devices ∧
        disk.ata_smart_attributes.isSome = true) ∧
        s = { item := get_item disk params.item_type.1
              parameters := baselineParams key disk }) ∧
    (discover_smart_ata params sec).length =
      (sec.devices.filter fun kd =>
        match kd.2 with
        | StorageDevice.ata d => d.ata_smart_attributes.isSome
        | StorageDevice.nonATA => false).length ∧
    (∀ key disk, (baselineParams key disk).key = key ∧
      (baselineParams key disk).id_5 =
        (ATAAll.by_id disk 5).map (fun e => e.raw.value) ∧
      (baselineParams key disk).id_10 =
        (ATAAll.by_id disk 10).map (fun e => e.raw.value) ∧
      (baselineParams key disk).id_184 =
        (ATAAll.by_id disk 184).map (fun e => e.raw.value) ∧
      (baselineParams key disk).id_187 =
        (ATAAll.by_id disk 187).map (fun e => e.raw.value) ∧
      (baselineParams key disk).id_188 =
        (ATAAll.by_id disk 188).map (fun e => e.raw.value) ∧
      (baselineParams key disk).id_196 =
        (ATAAll.by_id disk 196).map (fun e => e.raw.value) ∧
      (baselineParams key disk).id_197 =
        (ATAAll.by_id disk 197).map (fun e => e.raw.value) ∧
      (baselineParams key disk).id_199 =
        (ATAAll.by_id disk 199).map (fun e => e.raw.value)) := by
  refine ⟨fun s => ?_, ?_, fun key disk =>
    ⟨rfl, rfl, rfl, rfl, rfl, rfl, rfl, rfl, rfl⟩⟩
  · simp only [discover_smart_ata, List.mem_filterMap]
    constructor
    · rintro ⟨⟨key, dev⟩, hmem, hf⟩
      cases dev with
      | nonATA => simp at hf
      | ata disk =>
        by_cases hs : disk.ata_smart_attributes.isSome
        · simp only [hs, if_true] at hf
          exact ⟨key, disk, ⟨hmem, hs⟩, (Option.some.inj hf).symm⟩
        · simp [hs] at hf
    · rintro ⟨key, disk, ⟨hmem, hs⟩, rfl⟩
      exact ⟨(key, StorageDevice.ata disk), hmem, by simp [hs]⟩
  · exact length_filterMap_eq_length_filter _ _
      (fun kd => by
        cases hd : kd.2 with
        | nonATA => simp [hd]
        | ata disk => by_cases hs : disk.ata_smart_attributes.isSome <;>
            simp [hd, hs])
      sec.devices

/-- Witness for C7: a one-disk section with attribute 5 present yields the
proposal with the discovered raw value recorded. -/
theorem discovery_baseline_characterization_witness :
    ({ item := "sda"
       parameters := baselineParams ("sda", "S1")
         (mkDisk [mkAttr 5 "Reallocated_Sector_Ct" 100 36 2]) } : Service) ∈
      discover_smart_ata ⟨("device_name", none)⟩
        (mkSec (StorageDevice.ata
          (mkDisk [mkAttr 5 "Reallocated_Sector_Ct" 100 36 2]))) ∧
    baselineParams ("sda", "S1")
        (mkDisk [mkAttr 5 "Reallocated_Sector_Ct" 100 36 2]) =
      { key := ("sda", "S1"), id_5 := some 2, id_10 := none, id_184 := none
        id_187 := none, id_188 := none, id_196 := none, id_197 := none
        id_199 := none } :=
  ⟨((discovery_baseline_characterization ⟨("device_name", none)⟩
      (mkSec (StorageDevice.ata
        (mkDisk [mkAttr 5 "Reallocated_Sector_Ct" 100 36 2])))).1 _).mpr
    ⟨("sda", "S1"), mkDisk [mkAttr 5 "Reallocated_Sector_Ct" 100 36 2],
      ⟨List.mem_singleton.mpr rfl, rfl⟩, rfl⟩,
   by decide⟩

/-- C10: the secondary normalized-value check of attribute 196 sets both
lower bounds to the attribute's own vendor threshold, so a normalized
value strictly below the threshold is CRITICAL directly, a value at or
above it is OK, a WARN state is never emitted, and no metric accompanies
this secondary result. -/
theorem attr196_normalized_threshold (p : AtaParams) (disk : ATAAll)
    (a : ATAAttribute) (ha : ATAAll.by_id disk 196 = some a) :
    checkId196 p disk =
      _check_against_discovery a.raw.value p.id_196
        "Reallocated events" "harddrive_reallocated_events"
      ++ check_levels a.value (some (a.thresh, a.thresh))
        "Normalized value" toString none ∧
    (a.value < a.thresh →
      check_levels a.value (some (a.thresh, a.thresh))
          "Normalized value" toString none =
        [CheckOutput.result State.CRIT
           ("Normalized value: " ++ toString a.value)]) ∧
    (a.thresh ≤ a.value →
      check_levels a.value (some (a.thresh, a.thresh))
          "Normalized value" toString none =
        [CheckOutput.result State.OK
           ("Normalized value: " ++ toString a.value)]) ∧
    (∀ sm : String, CheckOutput.result State.WARN sm ∉
      check_levels a.value (some (a.thresh, a.thresh))
        "Normalized value" toString none) ∧
    metricsOf (check_levels a.value (some (a.thresh, a.thresh))
      "Normalized value" toString none) = [] := by
  refine ⟨?_, fun h => ?_, fun h => ?_, fun sm => ?_, ?_⟩
  · unfold checkId196
    rw [ha]
  · simp [check_levels, h]
  · simp [check_levels, not_lt.mpr h]
  · by_cases hv : a.value < a.thresh <;> simp [check_levels, hv]
  · by_cases hv : a.value < a.thresh <;> simp [metricsOf, check_levels, hv]

/-- Witness for C10: normalized value 10 below threshold 36 yields a
CRITICAL secondary result and no metric. -/
theorem attr196_normalized_threshold_witness :
    check_levels 10 (some (36, 36)) "Normalized value" toString none =
      [CheckOutput.result State.CRIT
         ("Normalized value: " ++ toString (10 : Int))] ∧
    metricsOf (check_levels 10 (some (36, 36))
      "Normalized value" toString none) = [] := by
  have h := attr196_normalized_threshold emptyParams
    (mkDisk [mkAttr 196 "Reallocated_Event_Count" 10 36 7])
    (mkAttr 196 "Reallocated_Event_Count" 10 36 7) rfl
  exact ⟨h.2.1 (by decide), h.2.2.2.2⟩

end SmartAta
